import Mathlib

/-!
Verification of the sensor-dashboard application (src/app.py).

The application subscribes to an MQTT topic, decodes JSON payloads carrying
temperature and humidity readings, and keeps the last 100 samples of each
metric in `collections.deque(maxlen=100)` ring buffers stored in a session
state dictionary, together with the latest values, a connected flag and a
client identifier.

The embedding below models the session state (`st.session_state.sensor_data`,
app.py lines 23-32), the MQTT callbacks `on_connect` (lines 35-40) and
`on_message` (lines 42-54), and the event stream the paho client delivers.
JSON decoding (`json.loads` composed with `bytes.decode`) is external library
code; a message therefore arrives here as `Option Json`: `none` when decoding
raises (malformed bytes or malformed JSON, which the `except` block of the
handler catches), and `some j` when decoding yields the JSON value `j`.
JSON numbers are modelled as rationals, timestamps as naturals.
-/

/-- A decoded JSON value, as produced by `json.loads`.  Objects are kept as
field lists; `json.loads` keeps the last binding of a duplicated key, which
`dictGetD` below respects. -/
inductive Json where
  | jnull
  | jbool (b : Bool)
  | jnum (q : Rat)
  | jstr (s : String)
  | jarr (elts : List Json)
  | jobj (fields : List (String × Json))

/-- Whether a JSON value is an object (a Python `dict` after `json.loads`).
Only on a `dict` does `payload.get(...)` succeed; on any other value it
raises `AttributeError` (app.py line 48). -/
def Json.isObj : Json → Bool
  | .jobj _ => true
  | _ => false

/-- Python `payload.get(key, dflt)` on a decoded JSON object: exact
(case-sensitive) string match on the key, last binding wins, default
returned when the key is absent. -/
def dictGetD (fields : List (String × Json)) (key : String) (dflt : Json) : Json :=
  fields.foldl (fun acc p => if p.1 = key then p.2 else acc) dflt

/-- `collections.deque(maxlen=cap).append(x)`: append `x` on the right and
discard from the left whatever exceeds the capacity `cap`. -/
def dequeAppend (cap : Nat) (xs : List α) (x : α) : List α :=
  (xs ++ [x]).drop (xs.length + 1 - cap)

/-- The session state `st.session_state.sensor_data` (app.py lines 23-32).
Timestamps (`datetime.now()`) are abstracted as naturals; `client_id`
abstracts the string built from `int(time.time())` at line 31. -/
structure SensorState where
  temp_data : List Json
  hum_data : List Json
  timestamps : List Nat
  last_temp : Json
  last_hum : Json
  connected : Bool
  client_id : Nat

/-- Initial session state (app.py lines 24-32): empty deques of capacity 100,
`last_temp = 0`, `last_hum = 0`, `connected = False`. -/
def initState (cid : Nat) : SensorState :=
  { temp_data := []
    hum_data := []
    timestamps := []
    last_temp := Json.jnum 0
    last_hum := Json.jnum 0
    connected := false
    client_id := cid }

/-- The `on_connect` callback (app.py lines 35-40): result code 0 sets
`connected` to true (and subscribes, an external effect); any other result
code sets it to false. -/
def on_connect (st : SensorState) (rc : Nat) : SensorState :=
  if rc = 0 then { st with connected := true } else { st with connected := false }

/-- The `on_message` callback (app.py lines 42-54).  `decoded` is the result
of `json.loads(msg.payload.decode())`: `none` when that raises.  On a decoded
object, the three deques are appended and the two latest-value fields are
overwritten; the stored values come from `payload.get('Temperatura', 0)` and
`payload.get('Humedad', 0)` (lines 48-52).  On a decoded non-object,
`payload.get` raises `AttributeError` before the first append; the `except`
block (lines 53-54) only logs, so the state is returned unchanged in every
failure case. -/
def on_message (st : SensorState) (now : Nat) (decoded : Option Json) : SensorState :=
  match decoded with
  | some (Json.jobj fields) =>
      { st with
        temp_data := dequeAppend 100 st.temp_data (dictGetD fields "Temperatura" (Json.jnum 0))
        hum_data := dequeAppend 100 st.hum_data (dictGetD fields "Humedad" (Json.jnum 0))
        timestamps := dequeAppend 100 st.timestamps now
        last_temp := dictGetD fields "Temperatura" (Json.jnum 0)
        last_hum := dictGetD fields "Humedad" (Json.jnum 0) }
  | some _ => st
  | none => st

/-- An event delivered by the paho MQTT client loop.  The application
registers `on_connect` and `on_message` only (app.py lines 60-61); it
registers no handler for the disconnect event. -/
inductive Event where
  | connect (rc : Nat)
  | message (now : Nat) (decoded : Option Json)
  | disconnect

/-- How one transport event transforms the session state.  A disconnect
event leaves the state untouched because app.py installs no callback for
it; only `on_connect` and `on_message` are registered. -/
def step (st : SensorState) (e : Event) : SensorState :=
  match e with
  | .connect rc => on_connect st rc
  | .message now d => on_message st now d
  | .disconnect => st

/-- The latest-value query: the Current Values endpoint (app.py lines
160-164) and the Dashboard metrics (lines 124-133) read the fields
`last_temp` and `last_hum` of the session state. -/
def currentValues (st : SensorState) : Json × Json :=
  (st.last_temp, st.last_hum)

/-- The alignment invariant of the three parallel deques: every stored
temperature has a matching humidity and timestamp at the same index. -/
def seriesAligned (st : SensorState) : Prop :=
  st.temp_data.length = st.hum_data.length ∧
    st.hum_data.length = st.timestamps.length

/-! Basic lemmas about the deque model. -/

theorem dequeAppend_def (cap : Nat) (xs : List α) (x : α) :
    dequeAppend cap xs x = (xs ++ [x]).drop (xs.length + 1 - cap) := rfl

theorem length_dequeAppend (cap : Nat) (xs : List α) (x : α) :
    (dequeAppend cap xs x).length = min (xs.length + 1) cap := by
  rw [dequeAppend_def, List.length_drop, List.length_append]
  simp only [List.length_singleton]
  omega

theorem foldl_dequeAppend (cap : Nat) :
    ∀ (ps l : List α), l.length ≤ cap →
      ps.foldl (dequeAppend cap) l = (l ++ ps).drop (l.length + ps.length - cap) := by
  intro ps
  induction ps with
  | nil =>
      intro l hl
      simp only [List.foldl_nil, List.append_nil, List.length_nil, Nat.add_zero,
        Nat.sub_eq_zero_of_le hl, List.drop_zero]
  | cons p ps ih =>
      intro l hl
      have hle : (dequeAppend cap l p).length ≤ cap := by
        rw [length_dequeAppend]
        omega
      have hd : l.length + 1 - cap ≤ (l ++ [p]).length := by
        rw [List.length_append]
        simp only [List.length_singleton]
        omega
      have hlen := length_dequeAppend cap l p
      rw [List.foldl_cons, ih (dequeAppend cap l p) hle, dequeAppend_def,
        ← List.drop_append_of_le_length hd, List.drop_drop,
        List.append_assoc, List.singleton_append]
      congr 1
      simp only [dequeAppend_def, List.length_drop, List.length_append,
        List.length_singleton, List.length_cons, List.length_nil] at hlen ⊢
      omega

theorem dictGetD_of_not_mem (fields : List (String × Json)) (key : String)
    (dflt : Json) (h : ∀ p ∈ fields, p.1 ≠ key) : dictGetD fields key dflt = dflt := by
  induction fields with
  | nil => rfl
  | cons p ps ih =>
      have hp : p.1 ≠ key := h p (List.mem_cons_self p ps)
      have hstep : dictGetD (p :: ps) key dflt = dictGetD ps key dflt := by
        simp [dictGetD, hp]
      rw [hstep]
      exact ih fun q hq => h q (List.mem_cons_of_mem p hq)

theorem step_preserves_seriesAligned (st : SensorState) (e : Event)
    (h : seriesAligned st) : seriesAligned (step st e) := by
  obtain ⟨h1, h2⟩ := h
  cases e with
  | connect rc =>
      show seriesAligned (on_connect st rc)
      unfold on_connect
      split
      · exact ⟨h1, h2⟩
      · exact ⟨h1, h2⟩
  | disconnect => exact ⟨h1, h2⟩
  | message now d =>
      cases d with
      | none => exact ⟨h1, h2⟩
      | some j =>
          cases j with
          | jnull => exact ⟨h1, h2⟩
          | jbool b => exact ⟨h1, h2⟩
          | jnum q => exact ⟨h1, h2⟩
          | jstr s => exact ⟨h1, h2⟩
          | jarr elts => exact ⟨h1, h2⟩
          | jobj fields =>
              refine ⟨?_, ?_⟩
              · show (dequeAppend 100 st.temp_data _).length =
                  (dequeAppend 100 st.hum_data _).length
                rw [length_dequeAppend, length_dequeAppend, h1]
              · show (dequeAppend 100 st.hum_data _).length =
                  (dequeAppend 100 st.timestamps _).length
                rw [length_dequeAppend, length_dequeAppend, h2]

theorem foldl_step_preserves_seriesAligned (events : List Event) :
    ∀ st : SensorState, seriesAligned st → seriesAligned (events.foldl step st) := by
  induction events with
  | nil => intro st h; exact h
  | cons e es ih => intro st h; exact ih _ (step_preserves_seriesAligned st e h)

/-! Claims. -/

/-- C1 counterexample: the key lookup in `on_message` is case-sensitive, so
ingesting the payload with capitalized keys and ingesting the payload with
lowercase keys produce different states — the former stores 21.5, the latter
falls back to the default 0. -/
theorem case_sensitive_lookup_counterexample :
    on_message (initState 0) 5 (some (Json.jobj
        [("Temperatura", Json.jnum 21.5), ("Humedad", Json.jnum 55)])) ≠
      on_message (initState 0) 5 (some (Json.jobj
        [("temperatura", Json.jnum 21.5), ("humedad", Json.jnum 55)])) := by
  intro h
  have h2 : (Json.jnum 21.5 : Json) = Json.jnum 0 := congrArg SensorState.last_temp h
  simp only [Json.jnum.injEq] at h2
  norm_num at h2

/-- C1 amended: the lookup `payload.get` is an exact, case-sensitive string
match.  Ingesting the lowercase-key payload records the default 0 for both
metrics, while ingesting the capitalized-key payload records the payload
values, so the two resulting states differ. -/
theorem case_sensitive_lookup (st : SensorState) (now : Nat) :
    (on_message st now (some (Json.jobj
        [("temperatura", Json.jnum 21.5), ("humedad", Json.jnum 55)]))).last_temp =
        Json.jnum 0 ∧
      (on_message st now (some (Json.jobj
        [("temperatura", Json.jnum 21.5), ("humedad", Json.jnum 55)]))).last_hum =
        Json.jnum 0 ∧
      (on_message st now (some (Json.jobj
        [("temperatura", Json.jnum 21.5), ("humedad", Json.jnum 55)]))).temp_data =
        dequeAppend 100 st.temp_data (Json.jnum 0) ∧
      (on_message st now (some (Json.jobj
        [("temperatura", Json.jnum 21.5), ("humedad", Json.jnum 55)]))).hum_data =
        dequeAppend 100 st.hum_data (Json.jnum 0) ∧
      (on_message st now (some (Json.jobj
        [("Temperatura", Json.jnum 21.5), ("Humedad", Json.jnum 55)]))).last_temp =
        Json.jnum 21.5 ∧
      (on_message st now (some (Json.jobj
        [("Temperatura", Json.jnum 21.5), ("Humedad", Json.jnum 55)]))).last_hum =
        Json.jnum 55 :=
  ⟨rfl, rfl, rfl, rfl, rfl, rfl⟩

/-- C2: a payload that fails to decode leaves the whole session state —
every series and every latest-value field — unchanged; decode failure never
partially updates state. -/
theorem malformed_payload_leaves_state_unchanged (st : SensorState) (now : Nat) :
    on_message st now none = st := rfl

/-- C3: for every sequence of pushes into an empty metric series, the length
never exceeds the capacity 100, and after more than 100 pushes the series is
exactly the last 100 pushed samples in arrival order. -/
theorem series_bounded_holds_last_capacity (ps : List Json) :
    (ps.foldl (dequeAppend 100) []).length ≤ 100 ∧
      (100 < ps.length →
        ps.foldl (dequeAppend 100) [] = ps.drop (ps.length - 100)) := by
  have h := foldl_dequeAppend 100 ps [] (by simp)
  simp only [List.nil_append, List.length_nil, Nat.zero_add] at h
  constructor
  · rw [h, List.length_drop]
    omega
  · intro _
    exact h

/-- C3 witness: 101 pushes into an empty series leave exactly the last 100
samples. -/
theorem series_bounded_holds_last_capacity_witness :
    ((List.replicate 101 (Json.jnum 7)).foldl (dequeAppend 100) []).length ≤ 100 ∧
      (List.replicate 101 (Json.jnum 7)).foldl (dequeAppend 100) [] =
        (List.replicate 101 (Json.jnum 7)).drop
          ((List.replicate 101 (Json.jnum 7)).length - 100) := by
  have h := series_bounded_holds_last_capacity (List.replicate 101 (Json.jnum 7))
  exact ⟨h.1, h.2 (by simp)⟩

/-- C4 counterexample: after a successful connect, a transport disconnect
event leaves the connected flag true — app.py registers no disconnect
handler, so the flag does not become false on disconnect as the claim
states. -/
theorem disconnect_flag_counterexample :
    (step (step (initState 0) (Event.connect 0)) Event.disconnect).connected ≠ false := by
  simp [step, on_connect, initState]

/-- C4 amended: the connected flag is set by the connect callback alone —
true exactly when the result code is 0, false otherwise — and a transport
disconnect event leaves the flag unchanged, because no disconnect handler is
registered. -/
theorem connected_flag_semantics (st : SensorState) (rc : Nat) :
    (step st (Event.connect rc)).connected = (rc == 0) ∧
      (step st Event.disconnect).connected = st.connected := by
  constructor
  · by_cases h : rc = 0 <;> simp [step, on_connect, h]
  · rfl

/-- C5 counterexample: a successful ingest mutates state outside the ring
buffers — the latest-value field `last_temp` changes from 0 to 21.5. -/
theorem ingest_mutates_latest_value_counterexample :
    (on_message (initState 0) 5 (some (Json.jobj
        [("Temperatura", Json.jnum 21.5), ("Humedad", Json.jnum 55)]))).last_temp ≠
      (initState 0).last_temp := by
  intro h
  have h2 : (Json.jnum 21.5 : Json) = Json.jnum 0 := h
  simp only [Json.jnum.injEq] at h2
  norm_num at h2

/-- C5 amended: a successful ingest appends exactly one sample to each of
the three deques and overwrites the two latest-value fields with the freshly
looked-up values; the connected flag and the client identifier are
unchanged. -/
theorem ingest_frame_effect (st : SensorState) (now : Nat)
    (fields : List (String × Json)) :
    (on_message st now (some (Json.jobj fields))).connected = st.connected ∧
      (on_message st now (some (Json.jobj fields))).client_id = st.client_id ∧
      (on_message st now (some (Json.jobj fields))).temp_data =
        dequeAppend 100 st.temp_data (dictGetD fields "Temperatura" (Json.jnum 0)) ∧
      (on_message st now (some (Json.jobj fields))).hum_data =
        dequeAppend 100 st.hum_data (dictGetD fields "Humedad" (Json.jnum 0)) ∧
      (on_message st now (some (Json.jobj fields))).timestamps =
        dequeAppend 100 st.timestamps now ∧
      (on_message st now (some (Json.jobj fields))).last_temp =
        dictGetD fields "Temperatura" (Json.jnum 0) ∧
      (on_message st now (some (Json.jobj fields))).last_hum =
        dictGetD fields "Humedad" (Json.jnum 0) :=
  ⟨rfl, rfl, rfl, rfl, rfl, rfl, rfl⟩

/-- C6: ingesting an object in which a configured metric key is absent
succeeds — a timestamp is recorded — and stores the configured default 0 as
the sample and latest value of that metric, rather than failing; this holds
for each configured metric, `Temperatura` and `Humedad` alike. -/
theorem missing_metric_defaults_to_zero (st : SensorState) (now : Nat)
    (fields : List (String × Json)) :
    ((∀ p ∈ fields, p.1 ≠ "Temperatura") →
      (on_message st now (some (Json.jobj fields))).temp_data =
          dequeAppend 100 st.temp_data (Json.jnum 0) ∧
        (on_message st now (some (Json.jobj fields))).last_temp = Json.jnum 0) ∧
      ((∀ p ∈ fields, p.1 ≠ "Humedad") →
        (on_message st now (some (Json.jobj fields))).hum_data =
            dequeAppend 100 st.hum_data (Json.jnum 0) ∧
          (on_message st now (some (Json.jobj fields))).last_hum = Json.jnum 0) ∧
      (on_message st now (some (Json.jobj fields))).timestamps =
        dequeAppend 100 st.timestamps now := by
  refine ⟨fun h => ⟨?_, ?_⟩, fun h => ⟨?_, ?_⟩, rfl⟩
  · show dequeAppend 100 st.temp_data (dictGetD fields "Temperatura" (Json.jnum 0)) = _
    rw [dictGetD_of_not_mem fields "Temperatura" (Json.jnum 0) h]
  · show dictGetD fields "Temperatura" (Json.jnum 0) = _
    rw [dictGetD_of_not_mem fields "Temperatura" (Json.jnum 0) h]
  · show dequeAppend 100 st.hum_data (dictGetD fields "Humedad" (Json.jnum 0)) = _
    rw [dictGetD_of_not_mem fields "Humedad" (Json.jnum 0) h]
  · show dictGetD fields "Humedad" (Json.jnum 0) = _
    rw [dictGetD_of_not_mem fields "Humedad" (Json.jnum 0) h]

/-- C6 witness: ingesting the payload with only a Temperatura field records
the default humidity 0 and a timestamp, and ingesting the payload with only
a Humedad field records the default temperature 0. -/
theorem missing_metric_defaults_to_zero_witness :
    ((on_message (initState 0) 3 (some (Json.jobj
        [("Temperatura", Json.jnum 21.5)]))).hum_data =
        dequeAppend 100 (initState 0).hum_data (Json.jnum 0) ∧
      (on_message (initState 0) 3 (some (Json.jobj
        [("Temperatura", Json.jnum 21.5)]))).last_hum = Json.jnum 0) ∧
    ((on_message (initState 0) 3 (some (Json.jobj
        [("Humedad", Json.jnum 55)]))).temp_data =
        dequeAppend 100 (initState 0).temp_data (Json.jnum 0) ∧
      (on_message (initState 0) 3 (some (Json.jobj
        [("Humedad", Json.jnum 55)]))).last_temp = Json.jnum 0) ∧
    (on_message (initState 0) 3 (some (Json.jobj
        [("Temperatura", Json.jnum 21.5)]))).timestamps =
      dequeAppend 100 (initState 0).timestamps 3 := by
  refine ⟨(missing_metric_defaults_to_zero (initState 0) 3 _).2.1 ?_,
    (missing_metric_defaults_to_zero (initState 0) 3 _).1 ?_,
    (missing_metric_defaults_to_zero (initState 0) 3 _).2.2⟩ <;>
    · intro p hp
      simp only [List.mem_singleton] at hp
      subst hp
      decide

/-- C7 counterexample: before any sample has been ingested the series are
empty, yet the latest-value query returns the concrete number 0 for both
metrics — not an empty optional. -/
theorem initial_latest_value_counterexample :
    (initState 0).temp_data = [] ∧ (initState 0).hum_data = [] ∧
      (initState 0).timestamps = [] ∧
      currentValues (initState 0) = (Json.jnum 0, Json.jnum 0) :=
  ⟨rfl, rfl, rfl, rfl⟩

/-- C7 amended: before any sample has been ingested, the sample series are
empty but the latest-value fields are initialized to 0, so querying the
latest value of a metric returns the concrete number 0, indistinguishable
from a genuine zero reading. -/
theorem initial_latest_value_is_zero (cid : Nat) :
    (initState cid).temp_data = [] ∧ (initState cid).hum_data = [] ∧
      (initState cid).timestamps = [] ∧
      currentValues (initState cid) = (Json.jnum 0, Json.jnum 0) :=
  ⟨rfl, rfl, rfl, rfl⟩

/-- C8: the timestamp stored by a successful ingest is the wall-clock
instant at receipt, whatever the payload object contains — in particular it
is independent of any timestamp field inside the payload. -/
theorem ingest_timestamp_is_receipt_time (st : SensorState) (now : Nat)
    (fields : List (String × Json)) :
    (on_message st now (some (Json.jobj fields))).timestamps =
      dequeAppend 100 st.timestamps now := rfl

/-- C9: after any sequence of transport events starting from the initial
state, the three deques — temperatures, humidities, timestamps — have equal
lengths: every stored temperature has a matching humidity and timestamp at
the same index. -/
theorem handler_keeps_series_aligned (events : List Event) (cid : Nat) :
    seriesAligned (events.foldl step (initState cid)) :=
  foldl_step_preserves_seriesAligned events (initState cid) ⟨rfl, rfl⟩

/-- C10: a payload that decodes to a JSON value that is not an object is
dropped exactly like a malformed payload: the state is unchanged, identical
to the result of a failed decode. -/
theorem non_object_payload_dropped (st : SensorState) (now : Nat) (j : Json)
    (h : j.isObj = false) :
    on_message st now (some j) = st ∧
      on_message st now (some j) = on_message st now none := by
  cases j with
  | jnull => exact ⟨rfl, rfl⟩
  | jbool b => exact ⟨rfl, rfl⟩
  | jnum q => exact ⟨rfl, rfl⟩
  | jstr s => exact ⟨rfl, rfl⟩
  | jarr elts => exact ⟨rfl, rfl⟩
  | jobj fields => exact absurd h (by simp [Json.isObj])

/-- C10 witness: a bare JSON number is dropped without touching the state. -/
theorem non_object_payload_dropped_witness :
    (Json.jnum 5).isObj = false ∧
      (on_message (initState 0) 7 (some (Json.jnum 5)) = initState 0 ∧
        on_message (initState 0) 7 (some (Json.jnum 5)) =
          on_message (initState 0) 7 none) :=
  ⟨rfl, non_object_payload_dropped (initState 0) 7 (Json.jnum 5) rfl⟩
